import Mathlib

/-!
Shallow embedding of the sparrow-installer interaction state machine
(src/src/main.rs): the `App` session record, its transition functions
(menu navigation, confirmation, password entry, progress/countdown
updates, operation completion) and the privileged-command runner's
result classification.  Wall-clock instants are modelled as naturals
counting milliseconds; `Instant::duration_since` saturates at zero,
matching natural-number subtraction.  The external world (spawn success,
exit status, captured stderr) is passed in as an explicit `CmdOutcome`,
and every function that can launch a subprocess also returns the list of
commands it (attempted to) spawn, so that claims about "no real
subprocess" are statable.
-/

namespace Sparrow

/-- Menu options, from `enum InstallerOption` in main.rs. -/
inductive InstallerOption
  | Default
  | Custom
  | UpdateSystem
  | Exit
deriving DecidableEq, Repr

/-- Interaction states, from `enum AppState`; `Processing` carries the
action description string, as in the source. -/
inductive AppState
  | MainMenu
  | Confirmation
  | PasswordInput
  | Processing (desc : String)
deriving DecidableEq, Repr

/-- Progress modes, from `enum ProgressType`. -/
inductive ProgressType
  | Indeterminate
  | Determinant (secs : Nat)
deriving DecidableEq, Repr

/-- Status severities, from `enum StatusType`. -/
inductive StatusType
  | Success
  | Error
  | Fail
deriving DecidableEq, Repr

/-- Deferred privileged actions, from `enum SystemAction`. -/
inductive SystemAction
  | Reboot
  | Poweroff
deriving DecidableEq, Repr

/-- Modelled from the spec: the embedded `text.toml` / `theme.toml`
configuration documents are not present under src/ (main.rs loads them
with include_str!), so the fields the state machine reads are kept as an
opaque record of timing constants and display strings, per section 6 of
the spec ("two structured documents ... supplying all display strings
... and timing constants").  Speeds are in milliseconds. -/
structure Config where
  countdown_seconds : Nat
  spinner_speed : Nat
  progress_bar_speed : Nat
  spinner_chars : List String
  confirm_default_install : String
  confirm_system_update : String
  progress_installing : String
  progress_updating : String
  processing : String
  progress_rebooting : String
  progress_poweroff : String
  operation_success : String
  option_disabled : String
  custom_disabled : String
  password_auth_failed : String
  password_empty_error : String
  dry_run_script_output : String
  dry_run_update_output : String
deriving DecidableEq, Repr

/-- The session record, from `struct App` in main.rs.  The theme and
text configuration objects are merged into the single `text : Config`
field (the theme contributes only the three speed constants the state
machine reads).  `Instant` fields are milliseconds. -/
structure App where
  options : List InstallerOption
  selected : Nat
  should_quit : Bool
  dry_run : Bool
  status_message : Option (String × StatusType)
  show_confirmation : Bool
  confirmation_message : String
  app_state : AppState
  text : Config
  progress_type : Option ProgressType
  progress_step : Nat
  progress_bar_position : Nat
  countdown_remaining : Nat
  action_output : List String
  last_spinner_update : Nat
  last_progress_update : Nat
  last_countdown_update : Nat
  dry_run_start_time : Option Nat
  password_input : String
  pending_operation : Option InstallerOption
  show_password : Bool
  pending_system_action : Option SystemAction
deriving DecidableEq, Repr

/-- `InstallerOption::is_enabled`. -/
def InstallerOption.is_enabled : InstallerOption → Bool
  | .Custom => false
  | _ => true

/-- `App::new(dry_run)`, with all `Instant::now()` values taken as 0. -/
def App.init (text : Config) (dry_run : Bool) : App where
  options := [.Default, .Custom, .UpdateSystem, .Exit]
  selected := 0
  should_quit := false
  dry_run := dry_run
  status_message := none
  show_confirmation := false
  confirmation_message := ""
  app_state := .MainMenu
  text := text
  progress_type := none
  progress_step := 0
  progress_bar_position := 0
  countdown_remaining := 0
  action_output := []
  last_spinner_update := 0
  last_progress_update := 0
  last_countdown_update := 0
  dry_run_start_time := none
  password_input := ""
  pending_operation := none
  show_password := false
  pending_system_action := none

/-- `App::next`: `self.selected = (self.selected + 1) % self.options.len()`. -/
def App.next (a : App) : App :=
  { a with selected := (a.selected + 1) % a.options.length }

/-- `App::previous`. -/
def App.previous (a : App) : App :=
  { a with
    selected :=
      if a.selected = 0 then a.options.length - 1 else a.selected - 1 }

/-- `App::show_confirmation(message)` (the method; renamed to avoid the
clash with the `show_confirmation` field). -/
def App.show_confirmation_msg (a : App) (message : String) : App :=
  { a with
    confirmation_message := message
    show_confirmation := true
    app_state := .Confirmation }

/-- `App::hide_confirmation`. -/
def App.hide_confirmation (a : App) : App :=
  { a with
    show_confirmation := false
    confirmation_message := ""
    app_state := .MainMenu }

/-- `App::show_password_input(operation)`. -/
def App.show_password_input (a : App) (operation : InstallerOption) : App :=
  { a with
    app_state := .PasswordInput
    pending_operation := some operation
    password_input := "" }

/-- `App::hide_password_input`. -/
def App.hide_password_input (a : App) : App :=
  { a with
    app_state := .MainMenu
    pending_operation := none
    password_input := ""
    show_password := false }

/-- `App::clear_status`. -/
def App.clear_status (a : App) : App :=
  { a with status_message := none }

/-- Outcome of one external-process invocation, supplied by the
environment: whether `spawn` / `output` itself succeeded, whether the
process exited with status 0, and the captured stderr text. -/
structure CmdOutcome where
  spawnOk : Bool
  exitSuccess : Bool
  stderr : String
deriving DecidableEq, Repr

/-- A `Result<(), anyhow::Error>` as the call sites observe it: errors
are carried as their rendered message string. -/
inductive CmdResult
  | ok
  | err (msg : String)
deriving DecidableEq, Repr

/-- Substring test on character lists: Rust `str::contains(&str)`. -/
def listContainsSub (pat : List Char) : List Char → Bool
  | [] => pat.isPrefixOf []
  | c :: rest => pat.isPrefixOf (c :: rest) || listContainsSub pat rest

/-- Substring test on strings: Rust `str::contains(&str)`. -/
def strContains (hay pat : String) : Bool :=
  listContainsSub pat.toList hay.toList

/-- The install-script invocation (`bash /usr/share/hypr/...setup.sh`). -/
def installCmd : String :=
  "bash /usr/share/hypr/end-4_installer/setup.sh"

/-- The update invocation (`sudo -S bootc update --apply`). -/
def updateCmd : String :=
  "sudo -S bootc update --apply"

/-- `App::install_default_dotfiles`: in dry-run, returns Ok without
spawning; otherwise runs the install script and maps a non-zero exit to
the "Setup script failed" error.  The second component lists the
commands whose spawn was attempted. -/
def install_default_dotfiles (a : App) (o : CmdOutcome) :
    CmdResult × List String :=
  if a.dry_run then (.ok, [])
  else if !o.spawnOk then (.err "spawn failure", [installCmd])
  else if !o.exitSuccess then
    (.err ("Setup script failed: " ++ o.stderr), [installCmd])
  else (.ok, [installCmd])

/-- `App::update_system`: in dry-run, returns Ok without spawning;
otherwise spawns `sudo -S bootc update --apply`, pipes the password to
stdin (clearing `password_input` right after the write), then classifies
a non-zero exit: stderr containing "Sorry, try again" or "incorrect
password" yields the configured auth-failure message, anything else
yields "System update failed: " plus the stderr text.  Returns the
mutated session, the result, and the attempted spawns. -/
def update_system (a : App) (o : CmdOutcome) :
    App × CmdResult × List String :=
  if a.dry_run then (a, .ok, [])
  else if !o.spawnOk then (a, .err "spawn failure", [updateCmd])
  else
    let a := { a with password_input := "" }
    if !o.exitSuccess then
      if strContains o.stderr "Sorry, try again" ||
          strContains o.stderr "incorrect password" then
        (a, .err a.text.password_auth_failed, [updateCmd])
      else
        (a, .err ("System update failed: " ++ o.stderr), [updateCmd])
    else (a, .ok, [updateCmd])

/-- `App::start_reboot`. -/
def start_reboot (a : App) (now : Nat) : App :=
  { a with
    app_state := .Processing a.text.progress_rebooting
    progress_type := some (.Determinant a.text.countdown_seconds)
    countdown_remaining := a.text.countdown_seconds
    progress_step := 0
    progress_bar_position := 0
    action_output := []
    last_spinner_update := now
    last_progress_update := now
    last_countdown_update := now
    dry_run_start_time := if a.dry_run then some now else none
    pending_system_action := some .Reboot }

/-- `App::start_poweroff`. -/
def start_poweroff (a : App) (now : Nat) : App :=
  { a with
    app_state := .Processing a.text.progress_poweroff
    progress_type := some (.Determinant a.text.countdown_seconds)
    countdown_remaining := a.text.countdown_seconds
    progress_step := 0
    progress_bar_position := 0
    action_output := []
    last_spinner_update := now
    last_progress_update := now
    last_countdown_update := now
    dry_run_start_time := if a.dry_run then some now else none
    pending_system_action := some .Poweroff }

/-- The tail of `App::finish_operation` that runs after the success /
error branches (skipped by the early return of the Default-failure
branch): clear output, reset the bar, drop the dry-run start time,
clear the password, and reset the tick instants. -/
def finishTail (a : App) (now : Nat) : App :=
  { a with
    action_output := []
    progress_bar_position := 0
    dry_run_start_time := none
    password_input := ""
    last_spinner_update := now
    last_progress_update := now
    last_countdown_update := now }

/-- `App::finish_operation(result)`: Ok returns to the menu with a
success status; Err with `pending_operation == Some(Default)` starts the
reboot sequence and returns early (skipping `finishTail`); any other Err
returns to the menu with an error status. -/
def finish_operation (a : App) (result : CmdResult) (now : Nat) : App :=
  match result with
  | .ok =>
    finishTail
      { a with
        progress_type := none
        app_state := .MainMenu
        status_message := some (a.text.operation_success, .Success) } now
  | .err e =>
    match a.pending_operation with
    | some .Default =>
      start_reboot { a with pending_system_action := some .Reboot } now
    | _ =>
      finishTail
        { a with
          progress_type := none
          app_state := .MainMenu
          status_message := some ("Error: " ++ e, .Error) } now

/-- `App::start_simulation(option)`: load the canned dry-run output
lines for the chosen operation. -/
def start_simulation (a : App) (option : InstallerOption) : App :=
  match option with
  | .Default =>
    { a with action_output := a.text.dry_run_script_output.splitOn "\n" }
  | .UpdateSystem =>
    { a with action_output := a.text.dry_run_update_output.splitOn "\n" }
  | _ => a

/-- `App::finish_current_operation`: determinate (reboot/poweroff)
sequences either complete the dry-run simulation (clearing progress and
the password, quitting for poweroff, returning to the menu for reboot)
or, in real mode, just set the quit flag so the system action runs after
the loop; everything else takes the standard completion path back to the
menu with a success status. -/
def finish_current_operation (a : App) (now : Nat) : App :=
  match a.progress_type with
  | some (.Determinant _) =>
    let is_poweroff :=
      match a.pending_system_action with
      | some .Poweroff => true
      | _ => false
    if a.dry_run then
      let a :=
        { a with
          progress_type := none
          action_output := []
          progress_bar_position := 0
          dry_run_start_time := none
          password_input := "" }
      if is_poweroff then { a with should_quit := true }
      else
        { a with
          app_state := .MainMenu
          status_message :=
            some ("DRY-RUN: System action simulation complete", .Success)
          last_spinner_update := now
          last_progress_update := now
          last_countdown_update := now }
    else { a with should_quit := true }
  | _ =>
    { a with
      progress_type := none
      app_state := .MainMenu
      status_message := some (a.text.operation_success, .Success)
      action_output := []
      progress_bar_position := 0
      dry_run_start_time := none
      password_input := ""
      last_spinner_update := now
      last_progress_update := now
      last_countdown_update := now }

/-- The dry-run timeout guard at the top of `App::update_progress`:
`self.dry_run` and ten seconds elapsed since `dry_run_start_time`. -/
def dryRunTimeout (a : App) (now : Nat) : Bool :=
  a.dry_run &&
    match a.dry_run_start_time with
    | some start => decide (10000 ≤ now - start)
    | none => false

/-- `App::update_progress`: a no-op without an active progress mode;
otherwise first checks the dry-run 10-second timeout (finishing the
operation if it fired), then advances the spinner/bar cadences for
indeterminate progress, or ticks the one-second countdown for
determinate progress, finishing the operation once the countdown is
exhausted.  The boolean reports whether `finish_current_operation` was
invoked in this call. -/
def update_progress (a : App) (now : Nat) : App × Bool :=
  match a.progress_type with
  | none => (a, false)
  | some pt =>
    if dryRunTimeout a now then (finish_current_operation a now, true)
    else
      match pt with
      | .Indeterminate =>
        let a :=
          if a.text.spinner_speed ≤ now - a.last_spinner_update then
            { a with
              progress_step :=
                (a.progress_step + 1) % a.text.spinner_chars.length
              last_spinner_update := now }
          else a
        let a :=
          if a.text.progress_bar_speed ≤ now - a.last_progress_update then
            { a with
              progress_bar_position := a.progress_bar_position + 1
              last_progress_update := now }
          else a
        (a, false)
      | .Determinant _ =>
        if 1000 ≤ now - a.last_countdown_update then
          if 0 < a.countdown_remaining then
            ({ a with
               countdown_remaining := a.countdown_remaining - 1
               last_countdown_update := now }, false)
          else (finish_current_operation a now, true)
        else (a, false)

/-- `App::execute_option` (acts on `options[selected]`; the source
indexes the vector directly, which is total because `selected` stays in
range — modelled with `getD`). -/
def execute_option (a : App) (now : Nat) : App :=
  match a.options.getD a.selected .Default with
  | .Default =>
    if InstallerOption.Default.is_enabled then
      a.show_confirmation_msg a.text.confirm_default_install
    else { a with status_message := some (a.text.option_disabled, .Fail) }
  | .UpdateSystem =>
    if InstallerOption.UpdateSystem.is_enabled then
      a.show_password_input .UpdateSystem
    else { a with status_message := some (a.text.option_disabled, .Fail) }
  | .Exit => start_poweroff a now
  | .Custom =>
    { a with status_message := some (a.text.custom_disabled, .Fail) }

/-- `App::confirm_password`: with no pending operation this is a no-op.
In dry-run, move to the confirmation dialog (the secret is deliberately
retained — see the source comment "DO NOT DO THAT IMMEDIATELY, THE
PASSWORD WOULD GET THROWN AWAY").  In real mode, enter Processing, run
the pending operation, and either bounce back to PasswordInput on an
authentication failure (clearing the buffer, keeping the operation) or
take the standard `finish_operation` path. -/
def confirm_password (a : App) (now : Nat) (o : CmdOutcome) :
    App × List String :=
  match a.pending_operation with
  | none => (a, [])
  | some operation =>
    if a.dry_run then
      let confirmation_message :=
        match operation with
        | .Default => a.text.confirm_default_install
        | .UpdateSystem => a.text.confirm_system_update
        | _ => "Confirm operation?"
      (a.show_confirmation_msg confirmation_message, [])
    else
      let action_description :=
        match operation with
        | .Default => a.text.progress_installing
        | .UpdateSystem => a.text.progress_updating
        | _ => a.text.processing
      let a :=
        { a with
          app_state := .Processing action_description
          progress_type := some .Indeterminate
          progress_step := 0
          progress_bar_position := 0
          countdown_remaining := a.text.countdown_seconds
          action_output := []
          last_spinner_update := now
          last_progress_update := now
          last_countdown_update := now }
      let (a, result, spawns) :=
        match operation with
        | .Default =>
          let (r, s) := install_default_dotfiles a o
          (a, r, s)
        | .UpdateSystem => update_system a o
        | _ => (a, .ok, [])
      match result with
      | .err e =>
        if strContains e a.text.password_auth_failed then
          ({ a with
             progress_type := none
             app_state := .PasswordInput
             pending_operation := some operation
             password_input := ""
             status_message := some (e, .Error) }, spawns)
        else (finish_operation a (.err e) now, spawns)
      | .ok => (finish_operation a .ok now, spawns)

/-- `App::confirm_action`: hide the confirmation dialog, enter
Processing with indeterminate progress, then either start the dry-run
simulation (recording its start time, spawning nothing) or run the
selected operation for real and finish it. -/
def confirm_action (a : App) (now : Nat) (o : CmdOutcome) :
    App × List String :=
  let option := a.options.getD a.selected .Default
  let a := a.hide_confirmation
  let action_description :=
    match option with
    | .Default => a.text.progress_installing
    | .UpdateSystem => a.text.progress_updating
    | _ => a.text.processing
  let a :=
    { a with
      app_state := .Processing action_description
      progress_type := some .Indeterminate
      progress_step := 0
      progress_bar_position := 0
      countdown_remaining := a.text.countdown_seconds
      action_output := []
      last_spinner_update := now
      last_progress_update := now
      last_countdown_update := now }
  if a.dry_run then
    let a := { a with dry_run_start_time := some now }
    (start_simulation a option, [])
  else
    let (a, result, spawns) :=
      match option with
      | .Default =>
        let (r, s) := install_default_dotfiles a o
        (a, r, s)
      | .UpdateSystem => update_system a o
      | _ => (a, .ok, [])
    (finish_operation a result now, spawns)

/-- Keyboard events, the subset of `crossterm::KeyCode` the loop reads. -/
inductive KeyCode
  | Enter
  | Esc
  | Tab
  | Backspace
  | Char (c : Char)
  | Up
  | Down
  | Other
deriving DecidableEq, Repr

/-- The PasswordInput branch of `run_app`'s key handler: Enter submits a
non-empty buffer (or reports the empty-password error), Esc cancels, Tab
toggles visibility, Backspace/printable characters edit the buffer. -/
def passwordKey (a : App) (key : KeyCode) (now : Nat) (o : CmdOutcome) :
    App × List String :=
  match key with
  | .Enter =>
    if !a.password_input.isEmpty then confirm_password a now o
    else
      ({ a with
         status_message := some (a.text.password_empty_error, .Error) },
       [])
  | .Esc => (a.hide_password_input, [])
  | .Tab => ({ a with show_password := !a.show_password }, [])
  | .Backspace =>
    ({ a with password_input := a.password_input.dropRight 1 }, [])
  | .Char c => ({ a with password_input := a.password_input.push c }, [])
  | _ => (a, [])

/-- The confirmation-dialog branch of `run_app`'s key handler: Enter or
'y' confirms, Esc or 'n' cancels. -/
def confirmKey (a : App) (key : KeyCode) (now : Nat) (o : CmdOutcome) :
    App × List String :=
  match key with
  | .Enter => confirm_action a now o
  | .Char c =>
    if c = 'y' then confirm_action a now o
    else if c = 'n' then (a.hide_confirmation, [])
    else (a, [])
  | .Esc => (a.hide_confirmation, [])
  | _ => (a, [])

/-- The active-progress branch of `run_app`'s key handler: Esc aborts a
dry-run simulation and is ignored otherwise. -/
def progressKey (a : App) (key : KeyCode) : App × List String :=
  match key with
  | .Esc =>
    if a.dry_run then
      ({ a with
         progress_type := none
         app_state := .MainMenu
         status_message := some ("Simulation cancelled.", .Error)
         action_output := []
         dry_run_start_time := none }, [])
    else (a, [])
  | _ => (a, [])

/-- The main-menu branch of `run_app`'s key handler: 'q' starts the
poweroff sequence, Up/Down navigate (clearing any status), Enter runs
the selected option, Esc clears the status. -/
def menuKey (a : App) (key : KeyCode) (now : Nat) : App × List String :=
  match key with
  | .Char c => if c = 'q' then (start_poweroff a now, []) else (a, [])
  | .Down => (a.next.clear_status, [])
  | .Up => (a.previous.clear_status, [])
  | .Enter => (execute_option a now, [])
  | .Esc => (a.clear_status, [])
  | _ => (a, [])

/-- The key-event dispatch of `run_app` (the body of the
`if let Event::Key(key)` block): branch on PasswordInput, then the
confirmation dialog, then an active progress mode, then the main menu. -/
def dispatch (a : App) (key : KeyCode) (now : Nat) (o : CmdOutcome) :
    App × List String :=
  if a.app_state = .PasswordInput then passwordKey a key now o
  else if a.show_confirmation then confirmKey a key now o
  else if a.progress_type.isSome then progressKey a key
  else menuKey a key now

/-- Labels for the observable steps of one `run_app` loop iteration. -/
inductive StepAction
  | draw
  | progressAdvance
  | eventDispatch (k : KeyCode)
deriving DecidableEq, Repr

/-- One iteration of the `run_app` loop, in the source's order: draw,
then (when a progress mode is active) the time-based `update_progress`
advance, then `poll` and — when a key event arrived — its dispatch.
Returns the new session, the attempted spawns, and the trace of step
actions in execution order. -/
def loopIter (a : App) (ev : Option KeyCode) (now : Nat) (o : CmdOutcome) :
    App × List String × List StepAction :=
  let (a1, tr1) :=
    if a.progress_type.isSome then
      ((update_progress a now).1, [StepAction.progressAdvance])
    else (a, ([] : List StepAction))
  match ev with
  | some k =>
    let (a2, spawns) := dispatch a1 k now o
    (a2, spawns, [StepAction.draw] ++ tr1 ++ [StepAction.eventDispatch k])
  | none => (a1, [], [StepAction.draw] ++ tr1)

/-- Repeated `update_progress` calls at the given instants, stopping at
the loop's `should_quit` check, counting how many of them invoked
`finish_current_operation`. -/
def finishCount (a : App) : List Nat → Nat
  | [] => 0
  | now :: rest =>
    if a.should_quit then 0
    else
      let p := update_progress a now
      (if p.2 then 1 else 0) + finishCount p.1 rest

/-- Modelled from the spec: a concrete configuration instance (the
repository's text.toml / theme.toml are not under src/), used to
evaluate the machine on concrete inputs.  The countdown length, speeds
and display strings are representative values in the shape section 6 of
the spec describes. -/
def defaultCfg : Config where
  countdown_seconds := 5
  spinner_speed := 100
  progress_bar_speed := 80
  spinner_chars := ["|", "/", "-", "\\"]
  confirm_default_install := "Install the default configuration?"
  confirm_system_update := "Update the system?"
  progress_installing := "Installing default configuration"
  progress_updating := "Updating system"
  processing := "Processing"
  progress_rebooting := "Rebooting"
  progress_poweroff := "Powering off"
  operation_success := "Operation completed successfully"
  option_disabled := "This option is disabled"
  custom_disabled := "Custom installation is not available"
  password_auth_failed := "Authentication failed"
  password_empty_error := "Password cannot be empty"
  dry_run_script_output := "would install dotfiles"
  dry_run_update_output := "would update system"

/-- A neutral command outcome (spawn succeeds, exit 0, empty stderr). -/
def okOutcome : CmdOutcome where
  spawnOk := true
  exitSuccess := true
  stderr := ""

/-- A failing command outcome: spawn succeeds, exit non-zero, stderr
text that matches no authentication-failure phrase. -/
def bootFailOutcome : CmdOutcome where
  spawnOk := true
  exitSuccess := false
  stderr := "boom"

/-- A failing command outcome whose stderr carries sudo's
authentication-failure phrase. -/
def authFailOutcome : CmdOutcome where
  spawnOk := true
  exitSuccess := false
  stderr := "Sorry, try again"

/-!  General-purpose lemmas about the embedded transition functions. -/

theorem isPrefixOf_self (l : List Char) : l.isPrefixOf l = true := by
  induction l with
  | nil => rfl
  | cons c rest ih => simp [List.isPrefixOf, ih]

theorem listContainsSub_self (l : List Char) : listContainsSub l l = true := by
  cases l with
  | nil => rfl
  | cons c rest => simp [listContainsSub, isPrefixOf_self]

/-- Every string contains itself as a substring (Rust `s.contains(s)`). -/
theorem strContains_refl (s : String) : strContains s s = true :=
  listContainsSub_self s.toList

/-- `finish_current_operation` never touches the countdown counter. -/
theorem finish_current_operation_countdown (a : App) (now : Nat) :
    (finish_current_operation a now).countdown_remaining =
      a.countdown_remaining := by
  cases hpt : a.progress_type with
  | none => simp [finish_current_operation, hpt]
  | some pt =>
    cases pt with
    | Indeterminate => simp [finish_current_operation, hpt]
    | Determinant d =>
      cases hdr : a.dry_run with
      | false => simp [finish_current_operation, hpt, hdr]
      | true =>
        cases hpsa : a.pending_system_action with
        | none => simp [finish_current_operation, hpt, hdr, hpsa]
        | some sa =>
          cases sa <;> simp [finish_current_operation, hpt, hdr, hpsa]

/-- After `finish_current_operation` the session either has the quit
flag set or no active progress mode, so the loop can never run it a
second time for the same operation. -/
theorem finish_current_operation_exits (a : App) (now : Nat) :
    (finish_current_operation a now).should_quit = true ∨
      (finish_current_operation a now).progress_type = none := by
  cases hpt : a.progress_type with
  | none => right; simp [finish_current_operation, hpt]
  | some pt =>
    cases pt with
    | Indeterminate => right; simp [finish_current_operation, hpt]
    | Determinant d =>
      cases hdr : a.dry_run with
      | false => left; simp [finish_current_operation, hpt, hdr]
      | true =>
        cases hpsa : a.pending_system_action with
        | none => right; simp [finish_current_operation, hpt, hdr, hpsa]
        | some sa =>
          cases sa <;> right <;>
            simp [finish_current_operation, hpt, hdr, hpsa]

/-- Without an active progress mode, `update_progress` is the identity
and invokes no completion. -/
theorem update_progress_of_none (a : App) (now : Nat)
    (h : a.progress_type = none) : update_progress a now = (a, false) := by
  simp [update_progress, h]

/-- If a call to `update_progress` invoked `finish_current_operation`,
the resulting session has quit or has no progress mode left. -/
theorem update_progress_finished (a : App) (now : Nat)
    (h : (update_progress a now).2 = true) :
    (update_progress a now).1.should_quit = true ∨
      (update_progress a now).1.progress_type = none := by
  cases hpt : a.progress_type with
  | none => simp [update_progress, hpt] at h
  | some pt =>
    by_cases ht : dryRunTimeout a now = true
    · simpa [update_progress, hpt, ht] using
        finish_current_operation_exits a now
    · cases pt with
      | Indeterminate => simp [update_progress, hpt, ht] at h
      | Determinant d =>
        by_cases h1 : 1000 ≤ now - a.last_countdown_update
        · by_cases h2 : 0 < a.countdown_remaining
          · simp [update_progress, hpt, ht, h1, h2] at h
          · simpa [update_progress, hpt, ht, h1, h2] using
              finish_current_operation_exits a now
        · simp [update_progress, hpt, ht, h1] at h

/-- A quit session performs no further completions. -/
theorem finishCount_of_quit (a : App) (ts : List Nat)
    (h : a.should_quit = true) : finishCount a ts = 0 := by
  cases ts with
  | nil => rfl
  | cons t rest => simp [finishCount, h]

/-- A session without progress performs no further completions. -/
theorem finishCount_of_none (a : App) (ts : List Nat)
    (h : a.progress_type = none) : finishCount a ts = 0 := by
  induction ts generalizing a with
  | nil => rfl
  | cons t rest ih =>
    by_cases hq : a.should_quit = true
    · simp [finishCount, hq]
    · simp [finishCount, hq, update_progress_of_none a t h]
      exact ih a h

/-- Over any sequence of progress updates, the completion transition
fires at most once before the loop stops. -/
theorem finishCount_le_one (a : App) (ts : List Nat) :
    finishCount a ts ≤ 1 := by
  induction ts generalizing a with
  | nil => simp [finishCount]
  | cons t rest ih =>
    by_cases hq : a.should_quit = true
    · simp [finishCount, hq]
    · cases hf : (update_progress a t).2 with
      | false => simpa [finishCount, hq, hf] using ih (update_progress a t).1
      | true =>
        have hstop : finishCount (update_progress a t).1 rest = 0 := by
          rcases update_progress_finished a t hf with hx | hx
          · exact finishCount_of_quit _ _ hx
          · exact finishCount_of_none _ _ hx
        simp [finishCount, hq, hf, hstop]

/-- The session is showing the main menu: the state the navigation keys
act in. -/
def menuMode (a : App) : Prop :=
  a.app_state = .MainMenu ∧ a.show_confirmation = false ∧
    a.progress_type = none

/-- Folding a list of key events through the loop's dispatch. -/
def navRun (now : Nat) (o : CmdOutcome) (a : App) (ks : List KeyCode) : App :=
  ks.foldl (fun s k => (dispatch s k now o).1) a

theorem dispatch_down_of_menu (a : App) (now : Nat) (o : CmdOutcome)
    (h : menuMode a) : dispatch a .Down now o = (a.next.clear_status, []) := by
  obtain ⟨h1, h2, h3⟩ := h
  simp [dispatch, menuKey, h1, h2, h3]

theorem dispatch_up_of_menu (a : App) (now : Nat) (o : CmdOutcome)
    (h : menuMode a) :
    dispatch a .Up now o = (a.previous.clear_status, []) := by
  obtain ⟨h1, h2, h3⟩ := h
  simp [dispatch, menuKey, h1, h2, h3]

theorem nav_step_inv (a : App) (k : KeyCode) (now : Nat) (o : CmdOutcome)
    (h : menuMode a) (hlen : 0 < a.options.length)
    (hsel : a.selected < a.options.length) (hk : k = .Up ∨ k = .Down) :
    menuMode (dispatch a k now o).1 ∧
      (dispatch a k now o).1.options = a.options ∧
      (dispatch a k now o).1.selected < a.options.length := by
  obtain ⟨h1, h2, h3⟩ := h
  rcases hk with rfl | rfl
  · rw [dispatch_up_of_menu a now o ⟨h1, h2, h3⟩]
    refine ⟨⟨h1, h2, h3⟩, rfl, ?_⟩
    simp only [App.previous, App.clear_status]
    split <;> omega
  · rw [dispatch_down_of_menu a now o ⟨h1, h2, h3⟩]
    refine ⟨⟨h1, h2, h3⟩, rfl, ?_⟩
    simp only [App.next, App.clear_status]
    exact Nat.mod_lt _ hlen

theorem navRun_inv (now : Nat) (o : CmdOutcome) (ks : List KeyCode) (a : App)
    (h : menuMode a) (hlen : 0 < a.options.length)
    (hsel : a.selected < a.options.length)
    (hks : ∀ k ∈ ks, k = .Up ∨ k = .Down) :
    (navRun now o a ks).options = a.options ∧
      (navRun now o a ks).selected < a.options.length := by
  induction ks generalizing a with
  | nil => exact ⟨rfl, hsel⟩
  | cons k rest ih =>
    have hk : k = .Up ∨ k = .Down := hks k (List.mem_cons_self k rest)
    obtain ⟨hmm, hopt, hs⟩ := nav_step_inv a k now o h hlen hsel hk
    have hrest : ∀ x ∈ rest, x = KeyCode.Up ∨ x = KeyCode.Down :=
      fun x hx => hks x (List.mem_cons_of_mem k hx)
    have step :
        navRun now o a (k :: rest) =
          navRun now o (dispatch a k now o).1 rest := rfl
    rw [step]
    obtain ⟨ho, hb⟩ :=
      ih (dispatch a k now o).1 hmm (hopt ▸ hlen) (hopt ▸ hs) hrest
    exact ⟨ho.trans hopt, hopt ▸ hb⟩

/-!  Claim C8: menu navigation. -/

/-- **C8**: for every sequence of Up/Down key events dispatched in the
main menu, the selected index stays inside `[0, optionCount)`; Down from
the last index wraps to 0, and Up from index 0 wraps to the last
index. -/
theorem menu_navigation_wraps_and_stays_in_range :
    (∀ (now : Nat) (o : CmdOutcome) (a : App) (ks : List KeyCode),
        menuMode a → 0 < a.options.length →
        a.selected < a.options.length →
        (∀ k ∈ ks, k = KeyCode.Up ∨ k = KeyCode.Down) →
        (navRun now o a ks).selected < a.options.length) ∧
    (∀ (now : Nat) (o : CmdOutcome) (a : App),
        menuMode a → 0 < a.options.length →
        a.selected = a.options.length - 1 →
        (dispatch a .Down now o).1.selected = 0) ∧
    (∀ (now : Nat) (o : CmdOutcome) (a : App),
        menuMode a → a.selected = 0 →
        (dispatch a .Up now o).1.selected = a.options.length - 1) := by
  refine ⟨?_, ?_, ?_⟩
  · intro now o a ks h hlen hsel hks
    exact (navRun_inv now o ks a h hlen hsel hks).2
  · intro now o a h hlen hsel
    rw [dispatch_down_of_menu a now o h]
    simp only [App.next, App.clear_status]
    rw [hsel, Nat.sub_add_cancel hlen, Nat.mod_self]
  · intro now o a h hsel
    rw [dispatch_up_of_menu a now o h]
    simp [App.previous, App.clear_status, hsel]

/-- Witness for C8 at concrete inputs: three navigation keys from the
freshly initialised menu stay in range, Down at the last index (3 of 4)
wraps to 0, and Up at index 0 wraps to 3. -/
theorem menu_navigation_wraps_and_stays_in_range_witness :
    (navRun 0 okOutcome (App.init defaultCfg false)
        [.Down, .Down, .Up]).selected <
      (App.init defaultCfg false).options.length ∧
    (dispatch { App.init defaultCfg false with selected := 3 } .Down 0
        okOutcome).1.selected = 0 ∧
    (dispatch (App.init defaultCfg false) .Up 0 okOutcome).1.selected =
      (App.init defaultCfg false).options.length - 1 := by
  refine ⟨?_, ?_, ?_⟩
  · exact menu_navigation_wraps_and_stays_in_range.1 0 okOutcome _ _
      ⟨rfl, rfl, rfl⟩ (by decide) (by decide)
      (by
        intro k hk
        simp only [List.mem_cons, List.not_mem_nil, or_false] at hk
        rcases hk with rfl | rfl | rfl
        · exact Or.inr rfl
        · exact Or.inr rfl
        · exact Or.inl rfl)
  · exact menu_navigation_wraps_and_stays_in_range.2.1 0 okOutcome _
      ⟨rfl, rfl, rfl⟩ (by decide) (by decide)
  · exact menu_navigation_wraps_and_stays_in_range.2.2 0 okOutcome _
      ⟨rfl, rfl, rfl⟩ rfl

/-!  Claim C6: countdown behavior. -/

/-- The dry-run determinate session of the C6 counterexample: reached by
starting a reboot simulation in dry-run mode (which stamps
`dry_run_start_time`), ticking once, and then having the next loop
iteration run 11 seconds after the start (the loop guarantees no
iteration cadence). -/
def cdCexApp : App :=
  { App.init defaultCfg true with
      app_state := .Processing "Rebooting"
      progress_type := some (.Determinant 5)
      countdown_remaining := 3
      dry_run_start_time := some 0
      last_countdown_update := 500
      pending_system_action := some .Reboot }

/-- **C6 counterexample**: a progress update of a Determinant-progress
session in which more than one second has elapsed since the last
countdown tick and the countdown is positive, yet `countdown_remaining`
is not decremented — the dry-run 10-second timeout preempts the tick and
finishes the operation instead. -/
theorem countdown_tick_preempted_by_dry_run_timeout_cex :
    cdCexApp.progress_type = some (.Determinant 5) ∧
    1000 ≤ 11000 - cdCexApp.last_countdown_update ∧
    0 < cdCexApp.countdown_remaining ∧
    (update_progress cdCexApp 11000).1.countdown_remaining ≠
      cdCexApp.countdown_remaining - 1 := by decide

/-- **C6 (amended)**: for a Determinant-progress session, a progress
update in which at least one second elapsed since the last countdown
tick and in which the dry-run timeout has not expired decrements
`countdown_remaining` by exactly 1 when it is positive (no completion);
every update changes the countdown by at most 1 and never increases it
(so it cannot jump below 0); when the countdown has reached 0 (same side
conditions) the update triggers the completion transition; and over any
sequence of updates the completion transition fires at most once before
the loop stops. -/
theorem countdown_behavior_amended :
    (∀ (a : App) (now d : Nat),
        a.progress_type = some (.Determinant d) →
        dryRunTimeout a now = false →
        1000 ≤ now - a.last_countdown_update →
        0 < a.countdown_remaining →
        (update_progress a now).1.countdown_remaining =
            a.countdown_remaining - 1 ∧
          (update_progress a now).2 = false) ∧
    (∀ (a : App) (now : Nat),
        (update_progress a now).1.countdown_remaining ≤
            a.countdown_remaining ∧
          a.countdown_remaining ≤
            (update_progress a now).1.countdown_remaining + 1) ∧
    (∀ (a : App) (now d : Nat),
        a.progress_type = some (.Determinant d) →
        dryRunTimeout a now = false →
        1000 ≤ now - a.last_countdown_update →
        a.countdown_remaining = 0 →
        (update_progress a now).2 = true) ∧
    (∀ (a : App) (ts : List Nat), finishCount a ts ≤ 1) := by
  refine ⟨?_, ?_, ?_, ?_⟩
  · intro a now d hpt ht h1 h2
    constructor <;> simp [update_progress, hpt, ht, h1, h2]
  · intro a now
    cases hpt : a.progress_type with
    | none => simp [update_progress, hpt]
    | some pt =>
      by_cases ht : dryRunTimeout a now = true
      · constructor <;>
          simp [update_progress, hpt, ht, finish_current_operation_countdown]
      · cases pt with
        | Indeterminate =>
          constructor <;>
            · simp only [update_progress, hpt, ht, Bool.false_eq_true,
                if_false]
              split <;> split <;> simp
        | Determinant d =>
          by_cases h1 : 1000 ≤ now - a.last_countdown_update
          · by_cases h2 : 0 < a.countdown_remaining
            · have hstep : (update_progress a now).1.countdown_remaining =
                  a.countdown_remaining - 1 := by
                simp [update_progress, hpt, ht, h1, h2]
              rw [hstep]
              omega
            · constructor <;>
                simp [update_progress, hpt, ht, h1, h2,
                  finish_current_operation_countdown]
          · constructor <;> simp [update_progress, hpt, ht, h1]
  · intro a now d hpt ht h1 h2
    simp [update_progress, hpt, ht, h1, h2]
  · exact finishCount_le_one

/-- A real-mode determinate session used to witness C6. -/
def cdTickApp : App :=
  { App.init defaultCfg false with
      app_state := .Processing "Powering off"
      progress_type := some (.Determinant 5)
      countdown_remaining := 5
      pending_system_action := some .Poweroff }

/-- A real-mode determinate session with exhausted countdown, used to
witness C6. -/
def cdZeroApp : App :=
  { App.init defaultCfg false with
      app_state := .Processing "Powering off"
      progress_type := some (.Determinant 5)
      countdown_remaining := 0
      pending_system_action := some .Poweroff }

/-- Witness for C6 at concrete inputs: a 1.5-second tick decrements 5 to
4 without completing, an exhausted countdown triggers completion, and a
three-update run completes at most once. -/
theorem countdown_behavior_amended_witness :
    ((update_progress cdTickApp 1500).1.countdown_remaining = 4 ∧
      (update_progress cdTickApp 1500).2 = false) ∧
    (update_progress cdZeroApp 1500).2 = true ∧
    finishCount cdTickApp [1500, 2600, 3700] ≤ 1 := by
  refine ⟨?_, ?_, ?_⟩
  · exact countdown_behavior_amended.1 cdTickApp 1500 5 rfl rfl (by decide)
      (by decide)
  · exact countdown_behavior_amended.2.2.1 cdZeroApp 1500 5 rfl rfl
      (by decide) rfl
  · exact countdown_behavior_amended.2.2.2 cdTickApp [1500, 2600, 3700]

/-!  Secret-buffer clearing lemmas (claims C1, C4). -/

/-- `finish_operation` clears the password on every path except the
(unreachable in the Default flow, see C2) early-returning
`pending_operation == Some(Default)` error branch. -/
theorem finish_operation_password (a : App) (r : CmdResult) (now : Nat)
    (h : a.pending_operation ≠ some .Default) :
    (finish_operation a r now).password_input = "" := by
  cases r with
  | ok => simp [finish_operation, finishTail]
  | err e =>
    cases hp : a.pending_operation with
    | none => simp [finish_operation, hp, finishTail]
    | some op =>
      cases op with
      | Default => exact absurd hp h
      | Custom => simp [finish_operation, hp, finishTail]
      | UpdateSystem => simp [finish_operation, hp, finishTail]
      | Exit => simp [finish_operation, hp, finishTail]

/-- `finish_current_operation` clears the password on every branch
except the real-mode determinate one (which only sets the quit flag and
does not leave the Processing state). -/
theorem finish_current_operation_password (a : App) (now : Nat)
    (h : ∀ d, a.progress_type = some (.Determinant d) → a.dry_run = true) :
    (finish_current_operation a now).password_input = "" := by
  cases hpt : a.progress_type with
  | none => simp [finish_current_operation, hpt]
  | some pt =>
    cases pt with
    | Indeterminate => simp [finish_current_operation, hpt]
    | Determinant d =>
      have hd := h d hpt
      cases hpsa : a.pending_system_action with
      | none => simp [finish_current_operation, hpt, hd, hpsa]
      | some sa =>
        cases sa <;> simp [finish_current_operation, hpt, hd, hpsa]

/-- In real mode with the update operation pending, `confirm_password`
clears the secret buffer on every runner outcome: the authentication
failure branch clears it explicitly, `update_system` clears it after
writing it to the child's stdin, and `finish_operation` clears it on
the completion paths. -/
theorem confirm_password_clears (a : App) (now : Nat) (o : CmdOutcome)
    (hd : a.dry_run = false)
    (hp : a.pending_operation = some .UpdateSystem) :
    (confirm_password a now o).1.password_input = "" := by
  cases hs : o.spawnOk with
  | false =>
    by_cases hcc : strContains "spawn failure" a.text.password_auth_failed
        = true
    · simp [confirm_password, hp, hd, update_system, hs, hcc]
    · simp [confirm_password, hp, hd, update_system, hs, hcc,
        finish_operation, finishTail]
  | true =>
    cases he : o.exitSuccess with
    | true =>
      simp [confirm_password, hp, hd, update_system, hs, he,
        finish_operation, finishTail]
    | false =>
      by_cases hc : (strContains o.stderr "Sorry, try again" ||
          strContains o.stderr "incorrect password") = true
      · simp [confirm_password, hp, hd, update_system, hs, he, hc,
          strContains_refl]
      · by_cases hcc :
            strContains ("System update failed: " ++ o.stderr)
              a.text.password_auth_failed = true
        · simp [confirm_password, hp, hd, update_system, hs, he, hc, hcc]
        · simp [confirm_password, hp, hd, update_system, hs, he, hc, hcc,
            finish_operation, finishTail]

/-- Submitting the password in real mode (pending update operation)
leaves an empty secret buffer, whatever the runner outcome. -/
theorem dispatch_enter_password_clears (a : App) (now : Nat)
    (o : CmdOutcome) (hst : a.app_state = .PasswordInput)
    (hd : a.dry_run = false)
    (hp : a.pending_operation = some .UpdateSystem) :
    (dispatch a .Enter now o).1.password_input = "" := by
  cases hemp : a.password_input.isEmpty with
  | true =>
    have h0 : a.password_input = "" := (String.isEmpty_iff _).1 hemp
    have hE : ("" : String).isEmpty = true := rfl
    simp [dispatch, passwordKey, hst, h0, hE]
  | false =>
    simpa [dispatch, passwordKey, hst, hemp] using
      confirm_password_clears a now o hd hp

/-!  Claim C1: the secret buffer on state exits. -/

/-- The dry-run PasswordInput session of the C1 counterexample
(reachable: dry-run mode, select "Update system", type "x"). -/
def drySubmitApp : App :=
  { App.init defaultCfg true with
      app_state := .PasswordInput
      pending_operation := some .UpdateSystem
      password_input := "x" }

/-- **C1 counterexample**: in dry-run mode, submitting a non-empty
secret leaves `PasswordInput` for `Confirmation` with `password_input`
still equal to the submitted secret — the claim's "submit" transition
does not clear the buffer. -/
theorem password_retained_on_dry_run_submit :
    (dispatch drySubmitApp .Enter 0 okOutcome).1.app_state =
        .Confirmation ∧
      (dispatch drySubmitApp .Enter 0 okOutcome).1.password_input = "x" := by
  decide

/-- **C1 (amended)**: every transition that leaves `PasswordInput` or
`Processing` results in an empty `password_input`, except in dry-run
mode, where submit moves to `Confirmation` retaining the secret and
Esc-cancelling a simulation returns to the menu without clearing it.
Concretely: cancelling password entry clears the buffer and returns to
the menu; Esc dispatched in `PasswordInput` clears it; real-mode submit
(with the update operation pending) clears it on every runner outcome,
including authentication failure; `finish_current_operation` clears it
on every branch that leaves `Processing`; and `finish_operation` clears
it whenever the pending operation is not `Default` (the only case in
which it does not leave `Processing`). -/
theorem password_cleared_on_exit_amended :
    (∀ a : App,
        a.hide_password_input.password_input = "" ∧
          a.hide_password_input.app_state = .MainMenu) ∧
    (∀ (a : App) (now : Nat) (o : CmdOutcome),
        a.app_state = .PasswordInput →
        (dispatch a .Esc now o).1.password_input = "") ∧
    (∀ (a : App) (now : Nat) (o : CmdOutcome),
        a.app_state = .PasswordInput → a.dry_run = false →
        a.pending_operation = some .UpdateSystem →
        (dispatch a .Enter now o).1.password_input = "") ∧
    (∀ (a : App) (now : Nat),
        (∀ d, a.progress_type = some (.Determinant d) → a.dry_run = true) →
        (finish_current_operation a now).password_input = "") ∧
    (∀ (a : App) (r : CmdResult) (now : Nat),
        a.pending_operation ≠ some .Default →
        (finish_operation a r now).password_input = "") := by
  refine ⟨?_, ?_, ?_, ?_, ?_⟩
  · intro a; exact ⟨rfl, rfl⟩
  · intro a now o hst
    simp [dispatch, passwordKey, hst, App.hide_password_input]
  · exact dispatch_enter_password_clears
  · exact finish_current_operation_password
  · exact finish_operation_password

/-- A real-mode PasswordInput session with pending update and a typed
secret, used by the C1 and C4 witnesses. -/
def pwRealApp : App :=
  { App.init defaultCfg false with
      app_state := .PasswordInput
      pending_operation := some .UpdateSystem
      password_input := "hunter2" }

/-- Witness for C1 at concrete inputs: Esc and real-mode submit (with an
auth-failing runner) clear the buffer, as do the two completion
functions. -/
theorem password_cleared_on_exit_amended_witness :
    (dispatch pwRealApp .Esc 0 okOutcome).1.password_input = "" ∧
    (dispatch pwRealApp .Enter 0 authFailOutcome).1.password_input = "" ∧
    (finish_current_operation pwRealApp 0).password_input = "" ∧
    (finish_operation pwRealApp (.err "boom") 0).password_input = "" := by
  refine ⟨?_, ?_, ?_, ?_⟩
  · exact password_cleared_on_exit_amended.2.1 pwRealApp 0 okOutcome rfl
  · exact password_cleared_on_exit_amended.2.2.1 pwRealApp 0 authFailOutcome
      rfl rfl rfl
  · exact password_cleared_on_exit_amended.2.2.2.1 pwRealApp 0
      (fun d hd => nomatch hd)
  · exact password_cleared_on_exit_amended.2.2.2.2 pwRealApp (.err "boom") 0
      (by decide)

/-!  Claim C4: the authentication-failure loop. -/

/-- **C4**: in real mode, from `PasswordInput` with the update operation
pending and a non-empty secret, submitting when the runner reports an
authentication failure (non-zero exit, stderr matching a known phrase)
returns to `PasswordInput` with the pending operation unchanged, an
empty secret buffer, and the auth-failure error status shown. -/
theorem auth_failure_returns_to_password_input
    (a : App) (now : Nat) (o : CmdOutcome)
    (hst : a.app_state = .PasswordInput)
    (hd : a.dry_run = false)
    (hp : a.pending_operation = some .UpdateSystem)
    (hne : a.password_input.isEmpty = false)
    (hs : o.spawnOk = true)
    (he : o.exitSuccess = false)
    (hc : (strContains o.stderr "Sorry, try again" ||
        strContains o.stderr "incorrect password") = true) :
    (dispatch a .Enter now o).1.app_state = .PasswordInput ∧
    (dispatch a .Enter now o).1.pending_operation = some .UpdateSystem ∧
    (dispatch a .Enter now o).1.password_input = "" ∧
    (dispatch a .Enter now o).1.status_message =
      some (a.text.password_auth_failed, .Error) := by
  refine ⟨?_, ?_, ?_, ?_⟩ <;>
    simp [dispatch, passwordKey, hst, hne, confirm_password, hp, hd,
      update_system, hs, he, hc, strContains_refl]

/-- Witness for C4 at a concrete session and runner outcome. -/
theorem auth_failure_returns_to_password_input_witness :
    (dispatch pwRealApp .Enter 3 authFailOutcome).1.app_state =
        .PasswordInput ∧
      (dispatch pwRealApp .Enter 3 authFailOutcome).1.password_input =
        "" ∧
      (dispatch pwRealApp .Enter 3 authFailOutcome).1.pending_operation =
        some .UpdateSystem := by
  have h := auth_failure_returns_to_password_input pwRealApp 3
    authFailOutcome rfl rfl rfl rfl rfl rfl (by decide)
  exact ⟨h.1, h.2.2.1, h.2.1⟩

/-!  Claim C9: failure classification in the update runner. -/

/-- **C9**: a non-dry-run update-system run whose subprocess exits with
non-zero status is classified as an authentication failure exactly when
the captured stderr contains "Sorry, try again" or "incorrect password"
(case-sensitive substring match), and otherwise yields the
command-failure error carrying the stderr text. -/
theorem update_system_failure_classification
    (a : App) (o : CmdOutcome)
    (hd : a.dry_run = false) (hs : o.spawnOk = true)
    (he : o.exitSuccess = false) :
    (update_system a o).2.1 =
      .err
        (if (strContains o.stderr "Sorry, try again" ||
              strContains o.stderr "incorrect password") = true then
          a.text.password_auth_failed
        else "System update failed: " ++ o.stderr) ∧
    (a.text.password_auth_failed ≠ "System update failed: " ++ o.stderr →
      (((update_system a o).2.1 = .err a.text.password_auth_failed) ↔
        (strContains o.stderr "Sorry, try again" ||
          strContains o.stderr "incorrect password") = true)) := by
  by_cases hc : (strContains o.stderr "Sorry, try again" ||
      strContains o.stderr "incorrect password") = true
  · constructor
    · simp [update_system, hd, hs, he, hc]
    · intro hne
      simp [update_system, hd, hs, he, hc]
  · constructor
    · simp [update_system, hd, hs, he, hc]
    · intro hne
      simp [update_system, hd, hs, he, hc]
      exact fun hbad => hne hbad.symm

/-- Witness for C9: sudo's "Sorry, try again" stderr is classified as
the auth failure, a plain "boom" stderr as a command failure. -/
theorem update_system_failure_classification_witness :
    (update_system (App.init defaultCfg false) authFailOutcome).2.1 =
      .err defaultCfg.password_auth_failed ∧
    (update_system (App.init defaultCfg false) bootFailOutcome).2.1 =
      .err ("System update failed: " ++ "boom") := by
  constructor
  · exact ((update_system_failure_classification (App.init defaultCfg false)
      authFailOutcome rfl rfl rfl).1).trans (by decide)
  · exact ((update_system_failure_classification (App.init defaultCfg false)
      bootFailOutcome rfl rfl rfl).1).trans (by decide)

/-!  Claim C10: submitting an empty password. -/

/-- **C10**: pressing Enter in `PasswordInput` with an empty buffer
performs no transition and spawns nothing: the session is unchanged
except for the empty-password error status message. -/
theorem empty_password_submit_is_inert
    (a : App) (now : Nat) (o : CmdOutcome)
    (hst : a.app_state = .PasswordInput)
    (hemp : a.password_input = "") :
    dispatch a .Enter now o =
      ({ a with
         status_message := some (a.text.password_empty_error, .Error) },
        []) := by
  have hb : a.password_input.isEmpty = true := by rw [hemp]; rfl
  simp [dispatch, passwordKey, hst, hb]

/-- A PasswordInput session with an empty buffer, for the C10 witness. -/
def emptyPwApp : App :=
  { App.init defaultCfg false with
      app_state := .PasswordInput
      pending_operation := some .UpdateSystem }

/-- Witness for C10 at a concrete session. -/
theorem empty_password_submit_is_inert_witness :
    dispatch emptyPwApp .Enter 0 okOutcome =
      ({ emptyPwApp with
         status_message := some (defaultCfg.password_empty_error, .Error) },
        []) :=
  empty_password_submit_is_inert emptyPwApp 0 okOutcome rfl rfl

/-!  Claim C2: real-mode Default-install failure. -/

/-- **C2 (code bug)**: in real mode, selecting Default from the fresh
main menu, confirming, and having the install script fail (non-zero
exit, stderr "boom") attempts exactly the install command and then lands
on `MainMenu` with a plain error status, no pending system action, no
progress and no quit request — the reboot branch of `finish_operation`
never fires because `execute_option` never sets `pending_operation` for
the Default path, contradicting both the claim and the code's own
"Dotfiles installation failed - trigger reboot" comment. -/
theorem default_install_failure_reaches_main_menu_error :
    (dispatch (dispatch (App.init defaultCfg false) .Enter 0
        bootFailOutcome).1 .Enter 0 bootFailOutcome).2 = [installCmd] ∧
    (dispatch (dispatch (App.init defaultCfg false) .Enter 0
        bootFailOutcome).1 .Enter 0 bootFailOutcome).1.app_state =
      .MainMenu ∧
    (dispatch (dispatch (App.init defaultCfg false) .Enter 0
        bootFailOutcome).1 .Enter 0
        bootFailOutcome).1.pending_system_action = none ∧
    (dispatch (dispatch (App.init defaultCfg false) .Enter 0
        bootFailOutcome).1 .Enter 0 bootFailOutcome).1.progress_type =
      none ∧
    (dispatch (dispatch (App.init defaultCfg false) .Enter 0
        bootFailOutcome).1 .Enter 0 bootFailOutcome).1.status_message =
      some ("Error: Setup script failed: boom", .Error) ∧
    (dispatch (dispatch (App.init defaultCfg false) .Enter 0
        bootFailOutcome).1 .Enter 0 bootFailOutcome).1.should_quit =
      false := by decide

/-!  Claim C3: ordering inside one loop iteration. -/

/-- A session with an active indeterminate progress mode, used for the
C3 counterexample. -/
def progActiveApp : App :=
  { App.init defaultCfg false with
      app_state := .Processing "Installing default configuration"
      progress_type := some .Indeterminate }

/-- **C3 counterexample**: in an iteration with an active progress mode
and a pending key event, the trace is draw, then the progress advance,
then the event dispatch — the event is *not* dispatched before the
progress advance as claimed. -/
theorem progress_advance_precedes_event_dispatch_cex :
    (loopIter progActiveApp (some .Esc) 0 okOutcome).2.2 =
      [.draw, .progressAdvance, .eventDispatch .Esc] ∧
    ¬ ((loopIter progActiveApp (some .Esc) 0 okOutcome).2.2.indexOf
          (.eventDispatch .Esc) <
        (loopIter progActiveApp (some .Esc) 0 okOutcome).2.2.indexOf
          .progressAdvance) := by decide

/-- **C3 (amended)**: within one loop iteration with an active progress
mode, the time-based progress advance runs *before* the dispatch of a
pending keyboard event, and it runs whether or not an event arrived. -/
theorem progress_advance_before_event_dispatch :
    (∀ (a : App) (k : KeyCode) (now : Nat) (o : CmdOutcome),
        a.progress_type.isSome = true →
        (loopIter a (some k) now o).2.2 =
          [.draw, .progressAdvance, .eventDispatch k]) ∧
    (∀ (a : App) (now : Nat) (o : CmdOutcome),
        a.progress_type.isSome = true →
        (loopIter a none now o).2.2 = [.draw, .progressAdvance]) ∧
    (∀ (a : App) (k : KeyCode) (now : Nat) (o : CmdOutcome),
        a.progress_type.isSome = true →
        ∃ post,
          (loopIter a (some k) now o).2.2 =
              [.draw, .progressAdvance] ++ post ∧
            StepAction.eventDispatch k ∈ post) := by
  refine ⟨?_, ?_, ?_⟩
  · intro a k now o h
    simp [loopIter, h]
  · intro a now o h
    simp [loopIter, h]
  · intro a k now o h
    exact ⟨[.eventDispatch k], by simp [loopIter, h], by simp⟩

/-- Witness for C3 at a concrete session with active progress. -/
theorem progress_advance_before_event_dispatch_witness :
    (loopIter progActiveApp (some .Enter) 5 okOutcome).2.2 =
      [.draw, .progressAdvance, .eventDispatch .Enter] ∧
    (loopIter progActiveApp none 5 okOutcome).2.2 =
      [.draw, .progressAdvance] := by
  exact ⟨progress_advance_before_event_dispatch.1 progActiveApp .Enter 5
      okOutcome rfl,
    progress_advance_before_event_dispatch.2.1 progActiveApp 5 okOutcome
      rfl⟩

/-!  Claim C5: the dry-run Default-install simulation. -/

/-- **C5**: with `dryRun = true`, selecting Default from the fresh main
menu and confirming spawns no subprocess (for any runner outcomes), and
any progress update at least 10 seconds after the simulation started
returns the session to `MainMenu` with the success status and no
progress left. -/
theorem dry_run_default_install_simulation
    (cfg : Config) (t0 t1 t2 : Nat) (o o2 : CmdOutcome)
    (h10 : 10000 ≤ t2 - t1) :
    (dispatch (App.init cfg true) .Enter t0 o).2 = [] ∧
    (dispatch (dispatch (App.init cfg true) .Enter t0 o).1 .Enter t1
        o2).2 = [] ∧
    (dispatch (dispatch (App.init cfg true) .Enter t0 o).1 .Enter t1
        o2).1.app_state = .Processing cfg.progress_installing ∧
    (update_progress (dispatch (dispatch (App.init cfg true) .Enter t0
        o).1 .Enter t1 o2).1 t2).1.app_state = .MainMenu ∧
    (update_progress (dispatch (dispatch (App.init cfg true) .Enter t0
        o).1 .Enter t1 o2).1 t2).1.status_message =
      some (cfg.operation_success, .Success) ∧
    (update_progress (dispatch (dispatch (App.init cfg true) .Enter t0
        o).1 .Enter t1 o2).1 t2).1.progress_type = none := by
  refine ⟨?_, ?_, ?_, ?_, ?_, ?_⟩ <;>
    simp [dispatch, App.init, menuKey, confirmKey, execute_option,
      App.show_confirmation_msg, App.hide_confirmation, confirm_action,
      start_simulation, update_progress, dryRunTimeout,
      finish_current_operation, InstallerOption.is_enabled, h10]

/-- Witness for C5: concrete timestamps 0, 100 and 10100 (exactly the
10-second timeout after the simulation start). -/
theorem dry_run_default_install_simulation_witness :
    10000 ≤ 10100 - 100 ∧
    (update_progress (dispatch (dispatch (App.init defaultCfg true)
        .Enter 0 okOutcome).1 .Enter 100 okOutcome).1 10100).1.app_state =
      .MainMenu := by
  refine ⟨by decide, ?_⟩
  exact (dry_run_default_install_simulation defaultCfg 0 100 10100
    okOutcome okOutcome (by decide)).2.2.2.1

/-!  Claim C7: cancelling from PasswordInput and Confirmation. -/

/-- The dry-run Confirmation session of the C7 counterexample (reached
in dry-run mode by selecting "Update system", typing "x" and pressing
Enter, which moves to Confirmation retaining the pending operation and
the secret). -/
def confCancelApp : App :=
  { App.init defaultCfg true with
      app_state := .Confirmation
      show_confirmation := true
      confirmation_message := "Update the system?"
      selected := 2
      pending_operation := some .UpdateSystem
      password_input := "x" }

/-- **C7 counterexample**: cancelling from `Confirmation` with Esc does
return to `MainMenu`, but `pending_operation` is *not* reset to `none`
and `password_input` is *not* cleared, contradicting the claim. -/
theorem confirmation_cancel_keeps_pending_cex :
    (dispatch confCancelApp .Esc 0 okOutcome).1.app_state = .MainMenu ∧
    (dispatch confCancelApp .Esc 0 okOutcome).1.pending_operation =
      some .UpdateSystem ∧
    (dispatch confCancelApp .Esc 0 okOutcome).1.password_input = "x" := by
  decide

/-- **C7 (amended)**: cancelling from `PasswordInput` (Esc) returns to
`MainMenu` with `pending_operation = none` and an empty
`password_input`; cancelling from `Confirmation` (Esc or 'n') returns to
`MainMenu` but leaves `pending_operation` and `password_input` exactly
as they were (only the confirmation flag and message are cleared). -/
theorem cancel_transitions_amended :
    (∀ (a : App) (now : Nat) (o : CmdOutcome),
        a.app_state = .PasswordInput →
        (dispatch a .Esc now o).1 = a.hide_password_input ∧
          a.hide_password_input.app_state = .MainMenu ∧
          a.hide_password_input.pending_operation = none ∧
          a.hide_password_input.password_input = "") ∧
    (∀ (a : App) (now : Nat) (o : CmdOutcome),
        a.app_state = .Confirmation → a.show_confirmation = true →
        (dispatch a .Esc now o).1 = a.hide_confirmation ∧
          (dispatch a (.Char 'n') now o).1 = a.hide_confirmation ∧
          a.hide_confirmation.app_state = .MainMenu ∧
          a.hide_confirmation.pending_operation = a.pending_operation ∧
          a.hide_confirmation.password_input = a.password_input) := by
  constructor
  · intro a now o hst
    exact ⟨by simp [dispatch, passwordKey, hst], rfl, rfl, rfl⟩
  · intro a now o hst hsh
    have hn : ¬ (('n' : Char) = 'y') := by decide
    refine ⟨?_, ?_, rfl, rfl, rfl⟩
    · simp [dispatch, confirmKey, hst, hsh]
    · simp [dispatch, confirmKey, hst, hsh, hn]

/-- Witness for C7 at concrete sessions: Esc from password entry and 'n'
from the confirmation dialog. -/
theorem cancel_transitions_amended_witness :
    (dispatch pwRealApp .Esc 1 okOutcome).1 =
        pwRealApp.hide_password_input ∧
      (dispatch confCancelApp (.Char 'n') 1 okOutcome).1 =
        confCancelApp.hide_confirmation := by
  exact ⟨(cancel_transitions_amended.1 pwRealApp 1 okOutcome rfl).1,
    (cancel_transitions_amended.2 confCancelApp 1 okOutcome rfl rfl).2.1⟩

end Sparrow
